import Mathlib

/-!
Shallow embedding of src/send_applications.py: a batch outbound-message
dispatcher that reads recipient rows, renders a role-based template per
recipient, attaches a fixed payload, and delivers with bounded retry.
The file system is modelled as a pure map from path to optional byte list,
the SMTP transport as an oracle from attempt number to success.
-/

namespace SendApps

/-- Python truthiness fallback on a string: the expression s or d. -/
def pyOrS (s d : String) : String := if s = "" then d else s

/-- Python expression d.get(k) or dflt, where a missing key gives None. -/
def pyGetOr (o : Option String) (dflt : String) : String :=
  match o with
  | none => dflt
  | some s => pyOrS s dflt

/-- Python truthiness of an optional string (None and the empty string are falsy). -/
def pyTruthy (o : Option String) : Bool :=
  match o with
  | none => false
  | some s => !(s == "")

/-- Configuration constant DEFAULT_DELAY_SECONDS from the source. -/
def DEFAULT_DELAY_SECONDS : Nat := 3

/-- Configuration constant MAX_RETRIES from the source. -/
def MAX_RETRIES : Nat := 3

/-- Configuration constant RETRY_BACKOFF from the source. -/
def RETRY_BACKOFF : Nat := 5

/-- Role keys of the template table TEMPLATES. -/
inductive RoleKey
  | frontend
  | backend
  | software
  deriving DecidableEq

/-- One entry of TEMPLATES: a subject pattern and a body pattern. -/
structure Template where
  subject : String
  body : String
  deriving DecidableEq

/-- The TEMPLATES table of the source, keyed by role, with the pattern strings verbatim. -/
def TEMPLATES : RoleKey → Template
  | RoleKey.frontend =>
    { subject := "{company} — Frontend Engineer Application — Ayush Chauhan",
      body := "Hi {contact_name},\n\nHope you’re doing well! I’m Ayush Chauhan, an engineering intern at Agnitech Forge and an NSUT graduate with a strong foundation in full stack development. I have worked extensively with React, Next.js, and modern frontend systems to build user-friendly, performant applications.\n\nI’m actively looking for fresher opportunities and would love to connect to discuss any possibilities at {company}.\n\nWarm regards,\nAyush\n" }
  | RoleKey.backend =>
    { subject := "{company} — Backend Engineer Application — Ayush Chauhan",
      body := "Hi {contact_name},\n\nHope you’re doing well! I’m Ayush Chauhan, an engineering intern at Agnitech Forge and an NSUT graduate with a strong foundation in full stack development. I’ve gained hands-on experience with Node.js, Express, and MongoDB, working on APIs, integrations, and backend workflows.\n\nI’m actively looking for fresher opportunities and would love to connect to discuss any possibilities at {company}.\n\nWarm regards,\nAyush\n" }
  | RoleKey.software =>
    { subject := "{company} — Software Engineer Application — Ayush Chauhan",
      body := "Hi {contact_name},\n\nHope you’re doing well! I’m Ayush Chauhan, an engineering intern at Agnitech Forge and an NSUT graduate with a solid background in full stack software development. My experience spans React, Node.js, MongoDB, and even blockchain development through Solidity projects.\n\nI’m actively looking for fresher opportunities and would love to connect to discuss any possibilities at {company}.\n\nWarm regards,\nAyush\n" }

/-- Field substitution of Python str.format over a pattern: each brace-enclosed
field name is replaced, simultaneously, by its value under ctx.  The patterns in
TEMPLATES contain no escaped braces and only known field names, so those format
features are not modelled. -/
def substChars (ctx : String → String) : List Char → List Char
  | [] => []
  | c :: rest =>
    if c = '\x7b' then
      (ctx (String.mk (rest.takeWhile (fun d => d != '\x7d')))).data
        ++ substChars ctx ((rest.dropWhile (fun d => d != '\x7d')).drop 1)
    else
      c :: substChars ctx rest
termination_by l => l.length
decreasing_by
  · have h1 : (rest.dropWhile (fun d => d != '\x7d')).length ≤ rest.length :=
      (List.dropWhile_sublist _).length_le
    have h2 : ((rest.dropWhile (fun d => d != '\x7d')).drop 1).length =
        (rest.dropWhile (fun d => d != '\x7d')).length - 1 :=
      List.length_drop _ _
    simp only [List.length_cons]
    omega
  · simp only [List.length_cons]
    omega

/-- The call template.subject.format with the company keyword, as in the source. -/
def subjectFormat (pattern company : String) : String :=
  String.mk (substChars (fun f => if f = "company" then company else "") pattern.data)

/-- The call template.body.format with the contact_name and company keywords, as in the source. -/
def bodyFormat (pattern contact_name company : String) : String :=
  String.mk (substChars
    (fun f => if f = "contact_name" then contact_name
              else if f = "company" then company else "") pattern.data)

/-- Python str.strip(): drop leading and trailing whitespace (ASCII model). -/
def pyStrip (s : String) : String :=
  String.mk (((s.data.dropWhile Char.isWhitespace).reverse.dropWhile Char.isWhitespace).reverse)

/-- Python str.lower() (ASCII model). -/
def pyLower (s : String) : String := String.mk (s.data.map Char.toLower)

/-- One input row, as produced by csv.DictReader: each recognized column is
either absent (None) or a string. -/
structure Record where
  email : Option String
  company : Option String
  contact_name : Option String
  role_preference : Option String
  subject : Option String
  deriving DecidableEq

/-- Recipient address of a row: the expression (r.get(email) or empty).strip(). -/
def resolveEmail (r : Record) : String := pyStrip (pyGetOr r.email "")

/-- Company of a row: the expression (r.get(company) or Company).strip(). -/
def resolveCompany (r : Record) : String := pyStrip (pyGetOr r.company "Company")

/-- Contact name of a row: the expression (r.get(contact_name) or empty).strip() or Hiring Team. -/
def resolveContactName (r : Record) : String :=
  pyOrS (pyStrip (pyGetOr r.contact_name "")) "Hiring Team"

/-- Normalization applied to the role_preference column: strip then lowercase. -/
def normRolePref (o : Option String) : String := pyLower (pyStrip (pyGetOr o ""))

/-- Normalized role preference of a row. -/
def resolvePreferred (r : Record) : String := normRolePref r.role_preference

/-- Subject override of a row: the expression (r.get(subject) or empty).strip(). -/
def resolveOverride (r : Record) : String := pyStrip (pyGetOr r.subject "")

/-- The template-choice chain of the main loop, as a function of the normalized
role preference string. -/
def resolveRole (preferred : String) : RoleKey :=
  if preferred = "frontend" ∨ preferred = "front-end" ∨ preferred = "ui" then
    RoleKey.frontend
  else if preferred = "backend" ∨ preferred = "back-end" then
    RoleKey.backend
  else
    RoleKey.software

/-- Rendered subject of a row: the override when non-empty, else the subject
pattern of the resolved role formatted with the company. -/
def resolveSubject (r : Record) : String :=
  if resolveOverride r = "" then
    subjectFormat (TEMPLATES (resolveRole (resolvePreferred r))).subject (resolveCompany r)
  else
    resolveOverride r

/-- Rendered body of a row: the body pattern of the resolved role formatted
with contact name and company. -/
def resolveBody (r : Record) : String :=
  bodyFormat (TEMPLATES (resolveRole (resolvePreferred r))).body
    (resolveContactName r) (resolveCompany r)

/-- Basename of a path, modelling Path.name for the attachment filename. -/
def pathBaseName (p : String) : String := (p.splitOn "/").getLastD p

/-- An outbound message value built by build_message. -/
structure Message where
  fromName : String
  fromEmail : Option String
  toEmail : String
  subject : String
  body : String
  attachment : List Nat
  filename : String
  deriving DecidableEq

/-- The function build_message of the source: reads the attachment bytes from
the file system at resume_path and attaches them, or fails with the
FileNotFoundError message when the path does not resolve to a file. -/
def build_message (from_name : String) (from_email : Option String)
    (to_email subject body_text resume_path : String)
    (fs : String → Option (List Nat)) : Except String Message :=
  match fs resume_path with
  | some data =>
    Except.ok { fromName := from_name, fromEmail := from_email, toEmail := to_email,
                subject := subject, body := body_text,
                attachment := data, filename := pathBaseName resume_path }
  | none => Except.error ("Resume not found at " ++ resume_path)

/-- Observable result of one send_smtp call: number of attempts made, the
sequence of backoff waits performed (in order), and whether a send succeeded. -/
structure SendResult where
  attempts : Nat
  waits : List Nat
  success : Bool
  deriving DecidableEq

/-- The retry loop of send_smtp.  The mailer oracle gives the outcome of each
numbered attempt.  remaining counts the iterations left out of MAX_RETRIES, so
the guard attempt < MAX_RETRIES of the source becomes remaining > 1. -/
def sendLoop (mailer : Nat → Bool) : Nat → Nat → SendResult
  | _, 0 => { attempts := 0, waits := [], success := false }
  | attempt, r + 1 =>
    if mailer attempt then
      { attempts := 1, waits := [], success := true }
    else if r = 0 then
      { attempts := 1, waits := [], success := false }
    else
      let rest := sendLoop mailer (attempt + 1) r
      { attempts := rest.attempts + 1,
        waits := RETRY_BACKOFF * attempt :: rest.waits,
        success := rest.success }

/-- The function send_smtp of the source, abstracted over the transport:
attempts run from 1 to MAX_RETRIES. -/
def send_smtp (mailer : Nat → Bool) : SendResult := sendLoop mailer 1 MAX_RETRIES

/-- Per-record delivery outcome names, following the DeliveryOutcome taxonomy. -/
inductive Outcome
  | Previewed
  | Sent
  | FailedAfterRetries
  | SkippedMissingEmail
  | SkippedBuildError
  deriving DecidableEq

/-- Mapping of the boolean send_smtp result to the per-record outcome recorded
by the main loop. -/
def deliverOutcome (res : SendResult) : Outcome :=
  if res.success then Outcome.Sent else Outcome.FailedAfterRetries

/-- Reasons for which main returns before completing the loop over all rows. -/
inductive AbortReason
  | MissingCredentials
  | NoRows
  | ResumeNotFound
  deriving DecidableEq

/-- Run configuration assembled from the command-line arguments and
environment defaults of main. -/
structure Config where
  send : Bool
  dryRun : Bool
  smtpUser : Option String
  smtpPass : Option String
  fromEmail : Option String
  fromName : String
  resumePath : String
  deriving DecidableEq

/-- Observable trace of one run: the early-return reason if any, the
per-record outcomes in order (paired with the 1-based row index), the file
reads performed by build_message, the messages built, and the row indices on
which send_smtp (network transport) was invoked. -/
structure RunResult where
  abort : Option AbortReason
  outcomes : List (Nat × Outcome)
  reads : List String
  messages : List Message
  sends : List Nat
  deriving DecidableEq

/-- The credential pre-flight check of main: not (smtp_user and smtp_pass and from_email). -/
def credsIncomplete (cfg : Config) : Bool :=
  !(pyTruthy cfg.smtpUser && pyTruthy cfg.smtpPass && pyTruthy cfg.fromEmail)

/-- The per-row loop of main.  The mailer oracle gives, per row index and
attempt number, the transport result of that attempt.  A blank recipient skips
the row; a build failure (missing attachment) logs, records SkippedBuildError
and returns, so the tail of the row list is not processed; otherwise the
message is previewed (dry-run, or send not enabled) or handed to send_smtp. -/
def processRows (cfg : Config) (fs : String → Option (List Nat))
    (mailer : Nat → Nat → Bool) : Nat → List Record → RunResult
  | _, [] =>
    { abort := none, outcomes := [], reads := [], messages := [], sends := [] }
  | i, r :: rest =>
    if resolveEmail r = "" then
      let tail := processRows cfg fs mailer (i + 1) rest
      { tail with outcomes := (i, Outcome.SkippedMissingEmail) :: tail.outcomes }
    else
      match build_message cfg.fromName cfg.fromEmail (resolveEmail r)
          (resolveSubject r) (resolveBody r) cfg.resumePath fs with
      | Except.error _ =>
        { abort := some AbortReason.ResumeNotFound,
          outcomes := [(i, Outcome.SkippedBuildError)],
          reads := [], messages := [], sends := [] }
      | Except.ok msg =>
        let tail := processRows cfg fs mailer (i + 1) rest
        if cfg.dryRun || !cfg.send then
          { tail with
            outcomes := (i, Outcome.Previewed) :: tail.outcomes,
            reads := cfg.resumePath :: tail.reads,
            messages := msg :: tail.messages }
        else
          let res := send_smtp (mailer i)
          { tail with
            outcomes := (i, deliverOutcome res) :: tail.outcomes,
            reads := cfg.resumePath :: tail.reads,
            messages := msg :: tail.messages,
            sends := i :: tail.sends }

/-- The function main of the source, over an already-parsed row list: the
credential pre-flight check in send mode, the empty-input check, then the
dispatch loop from row index 1. -/
def runMain (cfg : Config) (fs : String → Option (List Nat))
    (mailer : Nat → Nat → Bool) (rows : List Record) : RunResult :=
  if cfg.send && credsIncomplete cfg then
    { abort := some AbortReason.MissingCredentials,
      outcomes := [], reads := [], messages := [], sends := [] }
  else if rows.isEmpty then
    { abort := some AbortReason.NoRows,
      outcomes := [], reads := [], messages := [], sends := [] }
  else
    processRows cfg fs mailer 1 rows

/-- The message value produced by a successful build_message call inside the loop. -/
def builtMessage (cfg : Config) (r : Record) (data : List Nat) : Message :=
  { fromName := cfg.fromName, fromEmail := cfg.fromEmail, toEmail := resolveEmail r,
    subject := resolveSubject r, body := resolveBody r, attachment := data,
    filename := pathBaseName cfg.resumePath }

/-- Concrete transport oracle that succeeds on every attempt, for witnesses. -/
def wMailer : Nat → Nat → Bool := fun _ _ => true

/-- Concrete attachment payload, for witnesses. -/
def wBytes : List Nat := [37, 80, 68, 70]

/-- Concrete file system on which every path resolves to the payload, for witnesses. -/
def wFsSome : String → Option (List Nat) := fun _ => some wBytes

/-- Concrete file system on which no path exists, for witnesses. -/
def wFsNone : String → Option (List Nat) := fun _ => none

/-- Concrete preview-mode (dry-run) configuration, for witnesses. -/
def wCfgPreview : Config :=
  { send := false, dryRun := true, smtpUser := none, smtpPass := none,
    fromEmail := some "sender@example.com", fromName := "Sender",
    resumePath := "/resume.pdf" }

/-- Concrete send-mode configuration with complete credentials, for witnesses. -/
def wCfgSend : Config :=
  { send := true, dryRun := false, smtpUser := some "user", smtpPass := some "pass",
    fromEmail := some "sender@example.com", fromName := "Sender",
    resumePath := "/resume.pdf" }

/-- Concrete send-mode configuration missing the transport username, for witnesses. -/
def wCfgSendNoCreds : Config := { wCfgSend with smtpUser := none }

/-- Concrete row with a valid recipient and no optional fields, for witnesses. -/
def wValid : Record :=
  { email := some "a@example.com", company := none, contact_name := none,
    role_preference := none, subject := none }

/-- Concrete row whose email is whitespace only, for witnesses. -/
def wBlank : Record :=
  { email := some "   ", company := none, contact_name := none,
    role_preference := none, subject := none }

/-- Concrete row with a subject override, for witnesses. -/
def wOverride : Record :=
  { email := some "c@example.com", company := some "Acme", contact_name := none,
    role_preference := some "backend", subject := some "Custom!" }

/-- Concrete row with absent company and blank contact name, for witnesses. -/
def wDefaults : Record :=
  { email := some "d@example.com", company := none, contact_name := some "",
    role_preference := none, subject := none }

theorem processRows_nil (cfg : Config) (fs : String → Option (List Nat))
    (mailer : Nat → Nat → Bool) (i : Nat) :
    processRows cfg fs mailer i [] =
      { abort := none, outcomes := [], reads := [], messages := [], sends := [] } := rfl

theorem processRows_skip (cfg : Config) (fs : String → Option (List Nat))
    (mailer : Nat → Nat → Bool) (i : Nat) (r : Record) (rest : List Record)
    (he : resolveEmail r = "") :
    processRows cfg fs mailer i (r :: rest) =
      { processRows cfg fs mailer (i + 1) rest with
        outcomes := (i, Outcome.SkippedMissingEmail) ::
          (processRows cfg fs mailer (i + 1) rest).outcomes } := by
  simp [processRows, he]

theorem processRows_build_fail (cfg : Config) (fs : String → Option (List Nat))
    (mailer : Nat → Nat → Bool) (i : Nat) (r : Record) (rest : List Record)
    (he : ¬ resolveEmail r = "") (hfs : fs cfg.resumePath = none) :
    processRows cfg fs mailer i (r :: rest) =
      { abort := some AbortReason.ResumeNotFound
        outcomes := [(i, Outcome.SkippedBuildError)]
        reads := [], messages := [], sends := [] } := by
  simp [processRows, he, build_message, hfs]

theorem processRows_preview (cfg : Config) (fs : String → Option (List Nat))
    (mailer : Nat → Nat → Bool) (i : Nat) (r : Record) (rest : List Record)
    (data : List Nat) (he : ¬ resolveEmail r = "") (hfs : fs cfg.resumePath = some data)
    (hmode : (cfg.dryRun || !cfg.send) = true) :
    processRows cfg fs mailer i (r :: rest) =
      { processRows cfg fs mailer (i + 1) rest with
        outcomes := (i, Outcome.Previewed) :: (processRows cfg fs mailer (i + 1) rest).outcomes
        reads := cfg.resumePath :: (processRows cfg fs mailer (i + 1) rest).reads
        messages := builtMessage cfg r data ::
          (processRows cfg fs mailer (i + 1) rest).messages } := by
  simp [processRows, he, build_message, hfs, hmode, builtMessage]

theorem processRows_send (cfg : Config) (fs : String → Option (List Nat))
    (mailer : Nat → Nat → Bool) (i : Nat) (r : Record) (rest : List Record)
    (data : List Nat) (he : ¬ resolveEmail r = "") (hfs : fs cfg.resumePath = some data)
    (hmode : (cfg.dryRun || !cfg.send) = false) :
    processRows cfg fs mailer i (r :: rest) =
      { processRows cfg fs mailer (i + 1) rest with
        outcomes := (i, deliverOutcome (send_smtp (mailer i))) ::
          (processRows cfg fs mailer (i + 1) rest).outcomes
        reads := cfg.resumePath :: (processRows cfg fs mailer (i + 1) rest).reads
        messages := builtMessage cfg r data ::
          (processRows cfg fs mailer (i + 1) rest).messages
        sends := i :: (processRows cfg fs mailer (i + 1) rest).sends } := by
  simp [processRows, he, build_message, hfs, hmode, builtMessage]

theorem processRows_abort_ne_creds (cfg : Config) (fs : String → Option (List Nat))
    (mailer : Nat → Nat → Bool) :
    ∀ i rows, (processRows cfg fs mailer i rows).abort ≠ some AbortReason.MissingCredentials := by
  intro i rows
  induction rows generalizing i with
  | nil => simp [processRows_nil]
  | cons r rest ih =>
    by_cases he : resolveEmail r = ""
    · rw [processRows_skip cfg fs mailer i r rest he]
      exact ih (i + 1)
    · cases hfb : fs cfg.resumePath with
      | none =>
        rw [processRows_build_fail cfg fs mailer i r rest he hfb]
        simp
      | some data =>
        cases hmode : (cfg.dryRun || !cfg.send) with
        | true =>
          rw [processRows_preview cfg fs mailer i r rest data he hfb hmode]
          exact ih (i + 1)
        | false =>
          rw [processRows_send cfg fs mailer i r rest data he hfb hmode]
          exact ih (i + 1)

theorem processRows_sends_nil_of_no_send (cfg : Config) (fs : String → Option (List Nat))
    (mailer : Nat → Nat → Bool) (hsend : cfg.send = false) :
    ∀ i rows, (processRows cfg fs mailer i rows).sends = [] := by
  intro i rows
  induction rows generalizing i with
  | nil => simp [processRows_nil]
  | cons r rest ih =>
    by_cases he : resolveEmail r = ""
    · rw [processRows_skip cfg fs mailer i r rest he]
      exact ih (i + 1)
    · cases hfb : fs cfg.resumePath with
      | none =>
        rw [processRows_build_fail cfg fs mailer i r rest he hfb]
      | some data =>
        have hmode : (cfg.dryRun || !cfg.send) = true := by simp [hsend]
        rw [processRows_preview cfg fs mailer i r rest data he hfb hmode]
        exact ih (i + 1)

/-- Claim C1: when the attachment path does not resolve to an existing file, the
dispatch loop builds no message, performs no read, invokes no delivery, records
per-record outcomes that are only SkippedMissingEmail or SkippedBuildError, never
records any outcome after a SkippedBuildError (the run halts at the first build
failure), and does report SkippedBuildError as soon as some row has a non-blank
email. -/
theorem claim1_attachment_missing_halts (cfg : Config) (fs : String → Option (List Nat))
    (mailer : Nat → Nat → Bool) (hfs : fs cfg.resumePath = none) (i : Nat)
    (rows : List Record) :
    (processRows cfg fs mailer i rows).messages = [] ∧
    (processRows cfg fs mailer i rows).sends = [] ∧
    (processRows cfg fs mailer i rows).reads = [] ∧
    (∀ o ∈ (processRows cfg fs mailer i rows).outcomes,
      o.2 = Outcome.SkippedMissingEmail ∨ o.2 = Outcome.SkippedBuildError) ∧
    (processRows cfg fs mailer i rows).outcomes.Pairwise
      (fun o _ => o.2 ≠ Outcome.SkippedBuildError) ∧
    ((∃ r ∈ rows, resolveEmail r ≠ "") →
      ∃ o ∈ (processRows cfg fs mailer i rows).outcomes, o.2 = Outcome.SkippedBuildError) := by
  induction rows generalizing i with
  | nil =>
    refine ⟨rfl, rfl, rfl, ?_, List.Pairwise.nil, ?_⟩
    · intro o ho
      exact absurd ho (List.not_mem_nil o)
    · rintro ⟨r, hr, -⟩
      exact absurd hr (List.not_mem_nil r)
  | cons r rest ih =>
    by_cases he : resolveEmail r = ""
    · rw [processRows_skip cfg fs mailer i r rest he]
      obtain ⟨hm, hs, hr, hout, hpw, hex⟩ := ih (i + 1)
      refine ⟨hm, hs, hr, ?_, ?_, ?_⟩
      · intro o ho
        rcases List.mem_cons.mp ho with h | h
        · subst h; exact Or.inl rfl
        · exact hout o h
      · refine List.pairwise_cons.mpr ⟨?_, hpw⟩
        intro b _
        simp
      · rintro ⟨r0, hr0, hr0ne⟩
        rcases List.mem_cons.mp hr0 with h | h
        · exact absurd (h ▸ he) hr0ne
        · obtain ⟨o, ho, hoeq⟩ := hex ⟨r0, h, hr0ne⟩
          exact ⟨o, List.mem_cons_of_mem _ ho, hoeq⟩
    · rw [processRows_build_fail cfg fs mailer i r rest he hfs]
      refine ⟨rfl, rfl, rfl, ?_, ?_, ?_⟩
      · intro o ho
        rcases List.mem_cons.mp ho with h | h
        · subst h; exact Or.inr rfl
        · exact absurd h (List.not_mem_nil o)
      · exact List.pairwise_singleton _ _
      · intro _
        exact ⟨(i, Outcome.SkippedBuildError), List.mem_singleton_self _, rfl⟩

theorem claim1_witness :
    (processRows wCfgPreview wFsNone wMailer 1 [wBlank, wValid]).messages = [] ∧
    (processRows wCfgPreview wFsNone wMailer 1 [wBlank, wValid]).sends = [] ∧
    (processRows wCfgPreview wFsNone wMailer 1 [wBlank, wValid]).reads = [] ∧
    (∀ o ∈ (processRows wCfgPreview wFsNone wMailer 1 [wBlank, wValid]).outcomes,
      o.2 = Outcome.SkippedMissingEmail ∨ o.2 = Outcome.SkippedBuildError) ∧
    (processRows wCfgPreview wFsNone wMailer 1 [wBlank, wValid]).outcomes.Pairwise
      (fun o _ => o.2 ≠ Outcome.SkippedBuildError) ∧
    ((∃ r ∈ [wBlank, wValid], resolveEmail r ≠ "") →
      ∃ o ∈ (processRows wCfgPreview wFsNone wMailer 1 [wBlank, wValid]).outcomes,
        o.2 = Outcome.SkippedBuildError) :=
  claim1_attachment_missing_halts wCfgPreview wFsNone wMailer rfl 1 [wBlank, wValid]

/-- Claim C2: with a mailer that fails on every attempt, send_smtp makes exactly
MAX_RETRIES (3) attempts, waits RETRY_BACKOFF times 1 and then RETRY_BACKOFF times 2
between consecutive attempts with no wait after the final attempt, returns failure,
and the recorded outcome is FailedAfterRetries. -/
theorem claim2_retry_exhaustion (mailer : Nat → Bool) (h : ∀ k, mailer k = false) :
    send_smtp mailer =
      { attempts := MAX_RETRIES
        waits := [RETRY_BACKOFF * 1, RETRY_BACKOFF * 2]
        success := false } ∧
    deliverOutcome (send_smtp mailer) = Outcome.FailedAfterRetries := by
  have e : send_smtp mailer =
      { attempts := 3, waits := [5, 10], success := false } := by
    simp [send_smtp, MAX_RETRIES, sendLoop, h, RETRY_BACKOFF]
  refine ⟨e.trans (by norm_num [MAX_RETRIES, RETRY_BACKOFF]), ?_⟩
  rw [e]
  rfl

theorem claim2_witness :
    send_smtp (fun _ => false) =
      { attempts := MAX_RETRIES
        waits := [RETRY_BACKOFF * 1, RETRY_BACKOFF * 2]
        success := false } ∧
    deliverOutcome (send_smtp (fun _ => false)) = Outcome.FailedAfterRetries :=
  claim2_retry_exhaustion (fun _ => false) (fun _ => rfl)

/-- Claim C3: a row whose email is blank after trimming gets outcome
SkippedMissingEmail and the loop continues with the remaining rows unchanged:
no read, no built message and no transport call is added for that row. -/
theorem claim3_blank_email_skipped (cfg : Config) (fs : String → Option (List Nat))
    (mailer : Nat → Nat → Bool) (i : Nat) (r : Record) (rest : List Record)
    (he : resolveEmail r = "") :
    (processRows cfg fs mailer i (r :: rest)).outcomes =
      (i, Outcome.SkippedMissingEmail) :: (processRows cfg fs mailer (i + 1) rest).outcomes ∧
    (processRows cfg fs mailer i (r :: rest)).reads =
      (processRows cfg fs mailer (i + 1) rest).reads ∧
    (processRows cfg fs mailer i (r :: rest)).messages =
      (processRows cfg fs mailer (i + 1) rest).messages ∧
    (processRows cfg fs mailer i (r :: rest)).sends =
      (processRows cfg fs mailer (i + 1) rest).sends := by
  rw [processRows_skip cfg fs mailer i r rest he]
  exact ⟨rfl, rfl, rfl, rfl⟩

theorem claim3_witness :
    resolveEmail wBlank = "" ∧
    ((processRows wCfgPreview wFsSome wMailer 1 (wBlank :: [wValid])).outcomes =
      (1, Outcome.SkippedMissingEmail) ::
        (processRows wCfgPreview wFsSome wMailer (1 + 1) [wValid]).outcomes ∧
    (processRows wCfgPreview wFsSome wMailer 1 (wBlank :: [wValid])).reads =
      (processRows wCfgPreview wFsSome wMailer (1 + 1) [wValid]).reads ∧
    (processRows wCfgPreview wFsSome wMailer 1 (wBlank :: [wValid])).messages =
      (processRows wCfgPreview wFsSome wMailer (1 + 1) [wValid]).messages ∧
    (processRows wCfgPreview wFsSome wMailer 1 (wBlank :: [wValid])).sends =
      (processRows wCfgPreview wFsSome wMailer (1 + 1) [wValid]).sends) :=
  ⟨by decide,
   claim3_blank_email_skipped wCfgPreview wFsSome wMailer 1 wBlank [wValid] (by decide)⟩

/-- Claim C4: role resolution is a pure total function of the trimmed lowercased
role preference: the frontend synonyms map to frontend, the backend synonyms to
backend, every other string to software; case variants normalize into these sets
and the empty or absent preference yields software. -/
theorem claim4_role_resolution :
    (∀ s, (s = "frontend" ∨ s = "front-end" ∨ s = "ui") →
      resolveRole s = RoleKey.frontend) ∧
    (∀ s, (s = "backend" ∨ s = "back-end") → resolveRole s = RoleKey.backend) ∧
    (∀ s, s ≠ "frontend" → s ≠ "front-end" → s ≠ "ui" → s ≠ "backend" → s ≠ "back-end" →
      resolveRole s = RoleKey.software) ∧
    resolveRole (normRolePref (some "FRONT-END")) = RoleKey.frontend ∧
    resolveRole (normRolePref (some "Backend")) = RoleKey.backend ∧
    resolveRole (normRolePref none) = RoleKey.software ∧
    resolveRole "" = RoleKey.software := by
  refine ⟨?_, ?_, ?_, by decide, by decide, by decide, by decide⟩
  · intro s hs
    simp [resolveRole, hs]
  · intro s hs
    have hne : ¬ (s = "frontend" ∨ s = "front-end" ∨ s = "ui") := by
      rcases hs with h | h <;> subst h <;> decide
    simp [resolveRole, hne, hs]
  · intro s h1 h2 h3 h4 h5
    simp [resolveRole, h1, h2, h3, h4, h5]

theorem claim4_witness :
    resolveRole "ui" = RoleKey.frontend ∧
    resolveRole "back-end" = RoleKey.backend ∧
    resolveRole "" = RoleKey.software :=
  ⟨claim4_role_resolution.1 "ui" (Or.inr (Or.inr rfl)),
   claim4_role_resolution.2.1 "back-end" (Or.inr rfl),
   claim4_role_resolution.2.2.1 "" (by decide) (by decide) (by decide) (by decide) (by decide)⟩

/-- Claim C5: when the trimmed subject override is non-empty the rendered subject
is that override verbatim, with no placeholder substitution, and it does not
depend on the role preference or the company of the row; otherwise the subject is
the resolved role subject pattern with the company substituted. -/
theorem claim5_subject_override :
    (∀ r : Record, resolveOverride r ≠ "" → resolveSubject r = resolveOverride r) ∧
    (∀ r r' : Record, resolveOverride r = resolveOverride r' → resolveOverride r ≠ "" →
      resolveSubject r = resolveSubject r') ∧
    (∀ r : Record, resolveOverride r = "" →
      resolveSubject r =
        subjectFormat (TEMPLATES (resolveRole (resolvePreferred r))).subject
          (resolveCompany r)) := by
  refine ⟨?_, ?_, ?_⟩
  · intro r hr
    simp [resolveSubject, hr]
  · intro r r' hrr hr
    have hr' : resolveOverride r' ≠ "" := by rw [← hrr]; exact hr
    simp [resolveSubject, hr, hr', hrr]
  · intro r hr
    simp [resolveSubject, hr]

theorem claim5_witness :
    resolveOverride wOverride ≠ "" ∧
    resolveSubject wOverride = resolveOverride wOverride :=
  ⟨by decide, claim5_subject_override.1 wOverride (by decide)⟩

/-- Claim C6 counterexample: the claim says the attachment is loaded once per run
and not re-read per recipient, but a preview run over two valid rows performs two
reads of the attachment path, so the number of reads is not at most one. -/
theorem claim6_counterexample :
    (processRows wCfgPreview wFsSome wMailer 1 [wValid, wValid]).reads =
      [wCfgPreview.resumePath, wCfgPreview.resumePath] ∧
    ¬ (processRows wCfgPreview wFsSome wMailer 1 [wValid, wValid]).reads.length ≤ 1 := by
  decide

/-- Claim C6 (amended): the attachment is re-read from the single fixed attachment
path once per built message (not loaded once per run), every read is of that same
path, and in every run all built messages carry byte-identical attachment bytes,
namely the bytes the file system holds at that path. -/
theorem claim6_amended_reread_identical (cfg : Config) (fs : String → Option (List Nat))
    (mailer : Nat → Nat → Bool) (data : List Nat) (hfs : fs cfg.resumePath = some data)
    (i : Nat) (rows : List Record) :
    (∀ p ∈ (processRows cfg fs mailer i rows).reads, p = cfg.resumePath) ∧
    (processRows cfg fs mailer i rows).reads.length =
      (processRows cfg fs mailer i rows).messages.length ∧
    (∀ m ∈ (processRows cfg fs mailer i rows).messages, m.attachment = data) := by
  induction rows generalizing i with
  | nil =>
    refine ⟨?_, rfl, ?_⟩
    · intro p hp
      exact absurd hp (List.not_mem_nil p)
    · intro m hm
      exact absurd hm (List.not_mem_nil m)
  | cons r rest ih =>
    obtain ⟨hrd, hlen, hatt⟩ := ih (i + 1)
    by_cases he : resolveEmail r = ""
    · rw [processRows_skip cfg fs mailer i r rest he]
      exact ⟨hrd, hlen, hatt⟩
    · cases hmode : (cfg.dryRun || !cfg.send) with
      | true =>
        rw [processRows_preview cfg fs mailer i r rest data he hfs hmode]
        refine ⟨?_, ?_, ?_⟩
        · intro p hp
          rcases List.mem_cons.mp hp with h | h
          · exact h
          · exact hrd p h
        · simpa using hlen
        · intro m hm
          rcases List.mem_cons.mp hm with h | h
          · subst h; rfl
          · exact hatt m h
      | false =>
        rw [processRows_send cfg fs mailer i r rest data he hfs hmode]
        refine ⟨?_, ?_, ?_⟩
        · intro p hp
          rcases List.mem_cons.mp hp with h | h
          · exact h
          · exact hrd p h
        · simpa using hlen
        · intro m hm
          rcases List.mem_cons.mp hm with h | h
          · subst h; rfl
          · exact hatt m h

theorem claim6_witness :
    wFsSome wCfgPreview.resumePath = some wBytes ∧
    ((∀ p ∈ (processRows wCfgPreview wFsSome wMailer 1 [wValid, wValid]).reads,
        p = wCfgPreview.resumePath) ∧
     (processRows wCfgPreview wFsSome wMailer 1 [wValid, wValid]).reads.length =
       (processRows wCfgPreview wFsSome wMailer 1 [wValid, wValid]).messages.length ∧
     (∀ m ∈ (processRows wCfgPreview wFsSome wMailer 1 [wValid, wValid]).messages,
        m.attachment = wBytes)) :=
  ⟨rfl, claim6_amended_reread_identical wCfgPreview wFsSome wMailer wBytes rfl 1
    [wValid, wValid]⟩

/-- Claim C7: with a mailer that first succeeds on attempt k (k between 1 and
MAX_RETRIES), send_smtp makes exactly k attempts, performs exactly the k minus 1
linear backoff waits that precede the successful attempt with none after it,
returns success immediately, and the recorded outcome is Sent. -/
theorem claim7_retry_short_circuit (mailer : Nat → Bool) (k : Nat)
    (h1 : 1 ≤ k) (h2 : k ≤ MAX_RETRIES) (hk : mailer k = true)
    (hprev : ∀ j, 1 ≤ j → j < k → mailer j = false) :
    send_smtp mailer =
      { attempts := k
        waits := (List.range (k - 1)).map (fun j => RETRY_BACKOFF * (j + 1))
        success := true } ∧
    deliverOutcome (send_smtp mailer) = Outcome.Sent := by
  have h2' : k ≤ 3 := h2
  interval_cases k
  · have e : send_smtp mailer = { attempts := 1, waits := [], success := true } := by
      simp [send_smtp, MAX_RETRIES, sendLoop, hk]
    exact ⟨e.trans (by norm_num), by rw [e]; rfl⟩
  · have hm1 : mailer 1 = false := hprev 1 (by omega) (by omega)
    have e : send_smtp mailer = { attempts := 2, waits := [5], success := true } := by
      simp [send_smtp, MAX_RETRIES, sendLoop, hm1, hk, RETRY_BACKOFF]
    exact ⟨e.trans (by norm_num [RETRY_BACKOFF, List.range_succ]), by rw [e]; rfl⟩
  · have hm1 : mailer 1 = false := hprev 1 (by omega) (by omega)
    have hm2 : mailer 2 = false := hprev 2 (by omega) (by omega)
    have e : send_smtp mailer = { attempts := 3, waits := [5, 10], success := true } := by
      simp [send_smtp, MAX_RETRIES, sendLoop, hm1, hm2, hk, RETRY_BACKOFF]
    exact ⟨e.trans (by norm_num [RETRY_BACKOFF, List.range_succ]), by rw [e]; rfl⟩

theorem claim7_witness :
    send_smtp (fun k => k == 2) =
      { attempts := 2
        waits := (List.range (2 - 1)).map (fun j => RETRY_BACKOFF * (j + 1))
        success := true } ∧
    deliverOutcome (send_smtp (fun k => k == 2)) = Outcome.Sent :=
  claim7_retry_short_circuit (fun k => k == 2) 2 (by decide) (by decide) (by decide)
    (by intro j hj1 hj2; interval_cases j; decide)

/-- Claim C8: in send mode an incomplete credential triple (transport username,
transport password, sender address) aborts the run before any record is
processed, with no outcome, read, message or transport call; with send mode not
enabled (preview, dry-run) the run never aborts for credentials and performs no
network send. -/
theorem claim8_credentials_preflight :
    (∀ (cfg : Config) (fs : String → Option (List Nat)) (mailer : Nat → Nat → Bool)
        (rows : List Record), cfg.send = true →
      (pyTruthy cfg.smtpUser = false ∨ pyTruthy cfg.smtpPass = false ∨
        pyTruthy cfg.fromEmail = false) →
      runMain cfg fs mailer rows =
        { abort := some AbortReason.MissingCredentials
          outcomes := [], reads := [], messages := [], sends := [] }) ∧
    (∀ (cfg : Config) (fs : String → Option (List Nat)) (mailer : Nat → Nat → Bool)
        (rows : List Record), cfg.send = false → cfg.dryRun = true →
      (runMain cfg fs mailer rows).sends = [] ∧
      (runMain cfg fs mailer rows).abort ≠ some AbortReason.MissingCredentials) := by
  constructor
  · intro cfg fs mailer rows hsend hmiss
    have hc : credsIncomplete cfg = true := by
      rcases hmiss with h | h | h <;> simp [credsIncomplete, h]
    simp [runMain, hsend, hc]
  · intro cfg fs mailer rows hsend _hdry
    have hcond : (cfg.send && credsIncomplete cfg) = false := by simp [hsend]
    cases hrows : rows.isEmpty with
    | true => simp [runMain, hcond, hrows]
    | false =>
      constructor
      · simp only [runMain, hcond, hrows]
        simp [processRows_sends_nil_of_no_send cfg fs mailer hsend]
      · simp only [runMain, hcond, hrows]
        simp [processRows_abort_ne_creds cfg fs mailer]

theorem claim8_witness :
    runMain wCfgSendNoCreds wFsSome wMailer [wValid] =
      { abort := some AbortReason.MissingCredentials
        outcomes := [], reads := [], messages := [], sends := [] } ∧
    (runMain wCfgPreview wFsSome wMailer [wValid]).sends = [] ∧
    (runMain wCfgPreview wFsSome wMailer [wValid]).abort ≠
      some AbortReason.MissingCredentials :=
  ⟨claim8_credentials_preflight.1 wCfgSendNoCreds wFsSome wMailer [wValid] rfl
      (Or.inl rfl),
   (claim8_credentials_preflight.2 wCfgPreview wFsSome wMailer [wValid] rfl rfl).1,
   (claim8_credentials_preflight.2 wCfgPreview wFsSome wMailer [wValid] rfl rfl).2⟩

/-- Claim C9: the render context defaults: an absent or blank company field
resolves to Company and an absent or blank contact_name field resolves to
Hiring Team. -/
theorem claim9_context_defaults (r : Record) :
    ((r.company = none ∨ r.company = some "") → resolveCompany r = "Company") ∧
    ((r.contact_name = none ∨ r.contact_name = some "") →
      resolveContactName r = "Hiring Team") := by
  constructor
  · intro h
    rcases h with h | h <;> simp [resolveCompany, pyGetOr, pyOrS, h] <;> decide
  · intro h
    rcases h with h | h <;> simp [resolveContactName, pyGetOr, pyOrS, h] <;> decide

theorem claim9_witness :
    resolveCompany wDefaults = "Company" ∧ resolveContactName wDefaults = "Hiring Team" :=
  ⟨(claim9_context_defaults wDefaults).1 (Or.inl rfl),
   (claim9_context_defaults wDefaults).2 (Or.inr rfl)⟩

/-- Claim C10: when the row list is empty and the credential pre-flight does not
fire, the run aborts with the no-rows message before the dispatch loop, with no
outcome, no read, no built message, and no transport call, for any file system
(the attachment path is never touched). -/
theorem claim10_no_rows_aborts (cfg : Config) (fs : String → Option (List Nat))
    (mailer : Nat → Nat → Bool) (h : (cfg.send && credsIncomplete cfg) = false) :
    runMain cfg fs mailer [] =
      { abort := some AbortReason.NoRows
        outcomes := [], reads := [], messages := [], sends := [] } := by
  simp [runMain, h]

theorem claim10_witness :
    (wCfgSend.send && credsIncomplete wCfgSend) = false ∧
    runMain wCfgSend wFsNone wMailer [] =
      { abort := some AbortReason.NoRows
        outcomes := [], reads := [], messages := [], sends := [] } :=
  ⟨by decide, claim10_no_rows_aborts wCfgSend wFsNone wMailer (by decide)⟩

end SendApps
